import Mathlib

/-!
Shallow embedding of `src/app.py` (scheduled Telegram content bot):
configuration merge and caching (`fetch_config`), message rotation
(`pick_message`), delivery orchestration (`send_slot`), and the command
parser (`handle_command`).  Python dicts that are only ever read through
key lookups are embedded as functions `String → Option V`; wall-clock
times are `Int` seconds; the remote fetch, the simulated date and the
transport outcomes are passed in explicitly as oracle values.
-/

namespace Bot

/-- A string-keyed dictionary, observed only through key lookups
(which is how every dict of `app.py` is used). -/
def Dict (V : Type) : Type := String → Option V

/-- The empty dictionary, `{}` in Python. -/
def emptyDict {V : Type} : Dict V := fun _ => none

/-- Python dict spread `\x7b**d, **o\x7d`: keys of `o` override keys of `d`. -/
def dictUpdate {V : Type} (d o : Dict V) : Dict V := fun k =>
  match o k with
  | some v => some v
  | none => d k

/-- First-defined choice on options (merge precedence helper). -/
def firstSome {V : Type} (a b : Option V) : Option V :=
  match a with
  | some v => some v
  | none => b

/-- The effective configuration, the shape built by `fetch_config`
(`app.py` lines 46-63 give the default instance). -/
structure Config where
  messages : Dict (List String)
  images : Dict String
  slot_image : Dict String
  rotation : Option String
  refresh_seconds : Int

/-- `DEFAULT_CONFIG` of `app.py` lines 46-63. -/
def DEFAULT_CONFIG : Config where
  messages := fun k =>
    if k = "11:00" then some ["11点文案A", "11点文案B", "11点文案C"]
    else if k = "15:00" then some ["15点文案A", "15点文案B", "15点文案C"]
    else if k = "22:00" then some ["22点文案A", "22点文案B", "22点文案C"]
    else none
  images := fun k =>
    if k = "left" then some ""
    else if k = "right" then some ""
    else none
  slot_image := fun k =>
    if k = "11:00" then some "left"
    else if k = "15:00" then some "right"
    else if k = "22:00" then some "left"
    else none
  rotation := some "round_robin"
  refresh_seconds := 120

/-- A fetched remote JSON document: each top-level key may be absent. -/
structure RemoteDoc where
  messages : Option (Dict (List String))
  images : Option (Dict String)
  slot_image : Option (Dict String)
  rotation : Option String
  refresh_seconds : Option Int

/-- The merge of `app.py` lines 107-111: `merged = DEFAULT_CONFIG.copy()`,
`merged.update(cfg)`, then `messages` / `images` / `slot_image` are each
re-merged key-by-key (`\x7b**DEFAULT_CONFIG[f], **(cfg.get(f) or \x7b\x7d)\x7d`). -/
def mergeConfig (doc : RemoteDoc) : Config where
  messages := dictUpdate DEFAULT_CONFIG.messages (doc.messages.getD emptyDict)
  images := dictUpdate DEFAULT_CONFIG.images (doc.images.getD emptyDict)
  slot_image := dictUpdate DEFAULT_CONFIG.slot_image (doc.slot_image.getD emptyDict)
  rotation := firstSome doc.rotation DEFAULT_CONFIG.rotation
  refresh_seconds := doc.refresh_seconds.getD DEFAULT_CONFIG.refresh_seconds

/-- The in-memory config cache `_cache` of `app.py` line 65. -/
structure Cache where
  loaded_at : Int
  data : Config

/-- Outcome of the single `requests.get(CONFIG_URL)` attempt: a parsed
document, or any failure (network error, timeout, non-2xx via
`raise_for_status`, malformed body via `r.json()`) — all failure modes
land in the same `except` branch of `fetch_config`. -/
inductive FetchResult where
  | ok (doc : RemoteDoc)
  | fail

/-- Whether the oracle models a successful fetch. -/
def FetchResult.isOk : FetchResult → Bool
  | .ok _ => true
  | .fail => false

/-- Result of a `fetch_config` call: the returned config, the cache
afterwards, and whether a network fetch was attempted at all. -/
structure FetchOut where
  result : Config
  cache : Cache
  fetched : Bool

/-- `fetch_config` of `app.py` lines 89-118, with the global `_cache`
passed and returned explicitly, `time.time()` as `now` and the network
as the `net` oracle. -/
def fetch_config (url_configured : Bool) (now : Int) (net : FetchResult)
    (c : Cache) : FetchOut :=
  let data := c.data
  let refresh := data.refresh_seconds
  if ¬ url_configured then ⟨data, c, false⟩
  else if now - c.loaded_at < refresh then ⟨data, c, false⟩
  else
    match net with
    | .ok doc =>
      let merged := mergeConfig doc
      ⟨merged, ⟨now, merged⟩, true⟩
    | .fail => ⟨data, c, true⟩

/-- The persisted round-robin state `_state` of `app.py` line 69.
`rr_index` is an unbounded Python int, hence `Int`. -/
structure RotState where
  rr_index : Int
  last_day : String
deriving DecidableEq

/-- The fields of `datetime.now(tzinfo)` that `pick_message` reads:
`int(now.strftime("%j"))` and `now.strftime("%Y-%m-%d")`. -/
structure Now where
  day_of_year : Nat
  today_key : String

/-- `sum(ord(c) for c in slot_hhmm) % 97` (`app.py` line 187). -/
def slot_bias (slot_hhmm : String) : Nat :=
  (slot_hhmm.data.map Char.toNat).sum % 97

/-- Python `str.lower()` (ASCII as used here), written by structural
recursion over the character list so that it computes by `decide`. -/
def lowerString (s : String) : String :=
  String.mk (s.data.map Char.toLower)

/-- `(cfg.get("rotation") or "round_robin").lower()` (`app.py` line 180):
a missing or empty value falls back to `"round_robin"`. -/
def rotationMode (cfg : Config) : String :=
  let r := cfg.rotation.getD ""
  if r = "" then "round_robin" else lowerString r

/-- `pick_message` of `app.py` lines 175-199 with the global `_state`
passed and returned explicitly (the returned state is what `save_state`
persists).  Python `%` on a nonnegative modulus is `Int.emod`. -/
def pick_message (cfg : Config) (slot_hhmm : String) (now : Now)
    (st : RotState) : String × RotState :=
  let messages := (cfg.messages slot_hhmm).getD []
  if messages = [] then ("", st)
  else if rotationMode cfg = "daily" then
    let idx := (now.day_of_year + slot_bias slot_hhmm) % messages.length
    (messages.getD idx "", st)
  else
    let st1 := if st.last_day ≠ now.today_key then
      { st with last_day := now.today_key } else st
    let idx := (Int.emod st1.rr_index messages.length).toNat
    (messages.getD idx "", { st1 with rr_index := st1.rr_index + 1 })

/-- An observable network call of the bot: the config `requests.get`, a
`sendMessage` POST, or a `sendPhoto` POST.  The up-to-4 retry attempts
inside `_post` are collapsed into one event plus a success flag, since no
claim observes attempt counts. -/
inductive NetEvent where
  | fetch
  | postText (chat : String) (text : String)
  | postPhoto (chat : String) (photo : String)
deriving DecidableEq

/-- Process environment and oracles read by `send_slot`: env vars
(`CONFIG_URL` presence, `CHAT_ID`, `DRY_RUN`), the clock, the network
result for a config fetch, the simulated date and the transport
outcomes. -/
structure Env where
  url_configured : Bool
  time_now : Int
  net : FetchResult
  date : Now
  dry_run : Bool
  chat_id : String
  text_ok : Bool
  photo_ok : Bool

/-- `_post` of `app.py` lines 121-142 at the trace level: in `DRY_RUN`
it logs and succeeds with no network; otherwise it performs the call
(`ev`) and succeeds iff the oracle says so. -/
def post_events (dry succ : Bool) (ev : NetEvent) : Bool × List NetEvent :=
  if dry then (true, []) else (succ, [ev])

/-- Result of a `send_slot` call: the `(ok, summary)` return value plus
the explicit cache, rotation state and network-event trace. -/
structure SlotOut where
  ok : Bool
  summary : String
  cache : Cache
  state : RotState
  events : List NetEvent

/-- `send_slot` of `app.py` lines 202-229: fetch config, pick the text
(empty text short-circuits to failure), send text, resolve the slot
image key and reference, send photo (an empty reference is skipped with
success, `app.py` lines 163-165). -/
def send_slot (env : Env) (cache : Cache) (st : RotState)
    (slot_hhmm : String) (target_chat : Option String) : SlotOut :=
  let f := fetch_config env.url_configured env.time_now env.net cache
  let cfg := f.result
  let ev0 := if f.fetched then [NetEvent.fetch] else []
  let picked := pick_message cfg slot_hhmm env.date st
  let text := picked.1
  let st' := picked.2
  if text = "" then
    ⟨false, "slot " ++ slot_hhmm ++ ": no text configured", f.cache, st', ev0⟩
  else
    let chat := target_chat.getD env.chat_id
    let t := post_events env.dry_run env.text_ok (NetEvent.postText chat text)
    if t.1 = false then
      ⟨false, "slot " ++ slot_hhmm ++ ": send_text failed", f.cache, st',
        ev0 ++ t.2⟩
    else
      let slot_image_key := (cfg.slot_image slot_hhmm).getD ""
      let photo_ref := (cfg.images slot_image_key).getD ""
      let p := if photo_ref = "" then (true, ([] : List NetEvent))
        else post_events env.dry_run env.photo_ok
          (NetEvent.postPhoto chat photo_ref)
      if p.1 = false then
        ⟨false, "slot " ++ slot_hhmm ++ ": send_photo failed (key="
          ++ slot_image_key ++ ")", f.cache, st', ev0 ++ t.2 ++ p.2⟩
      else
        ⟨true, "slot " ++ slot_hhmm ++ ": ok (photo_key="
          ++ slot_image_key ++ ")", f.cache, st', ev0 ++ t.2 ++ p.2⟩

/-- The fixed slot table of `handle_command` (`app.py` line 301). -/
def slot_map : String → Option String := fun s =>
  if s = "11" then some "11:00"
  else if s = "15" then some "15:00"
  else if s = "22" then some "22:00"
  else if s = "11:00" then some "11:00"
  else if s = "15:00" then some "15:00"
  else if s = "22:00" then some "22:00"
  else none

/-- The help string returned with the `usage` pseudo-command
(`app.py` line 304). -/
def USAGE_TEXT : String := "用法：/test 11 | /test 15 | /test 22 | /test me 11"

/-- Accumulator-style whitespace splitter over a character list. -/
def wordsAux : List Char → List Char → List String
  | [], acc => if acc = [] then [] else [String.mk acc.reverse]
  | c :: cs, acc =>
    if c.isWhitespace then
      if acc = [] then wordsAux cs []
      else String.mk acc.reverse :: wordsAux cs []
    else wordsAux cs (c :: acc)

/-- Python `text.strip().split()`: split on whitespace runs, dropping
empty tokens. -/
def tokenize (text : String) : List String :=
  wordsAux text.data []

/-- Map a recognized-arity slot token through the slot table
(`app.py` lines 301-306): an unknown token yields the `usage`
pseudo-command. -/
def slotLookup (target s : String) : Option (String × String) :=
  match slot_map s with
  | some hhmm => some (target, hhmm)
  | none => some ("usage", USAGE_TEXT)

/-- The shape dispatch of `handle_command` (`app.py` lines 283-299) on
the token list: `/test <slot>` targets the channel, `/test me <slot>`
(case-insensitive `me`) targets the admin preview, anything else is
silently dropped. -/
def handle_parts : List String → Option (String × String)
  | [] => none
  | p0 :: rest =>
    if p0 = "/test" then
      match rest with
      | [s] => slotLookup "channel" s
      | [m, s] => if lowerString m = "me" then slotLookup "me" s else none
      | _ => none
    else none

/-- `handle_command` of `app.py` lines 275-306. -/
def handle_command (text : String) : Option (String × String) :=
  handle_parts (tokenize text)

/-- Modelled from the spec: the canonical variant's `selectImage`
(spec §4.3, "Image selection") is not present in `src/` (the single
source file sends the raw configured reference without pool handling).
Look up `slotImageKey[slot]` then `images[key]`, normalize the value to
a list of references with empty/blank entries dropped, return empty on
an empty pool, otherwise pick the entry at a uniformly random position
`r mod poolSize`. -/
def selectImage (images : Dict (List String)) (slotImageKey : Dict String)
    (slot : String) (r : Nat) : String :=
  let key := (slotImageKey slot).getD ""
  let pool := ((images key).getD []).filter
    (fun s => s.data.any (fun c => !c.isWhitespace))
  if pool = [] then "" else pool.getD (r % pool.length) ""

/-- A step of the canonical sendSlot sequence (spec §4.4). -/
inductive StepEv where
  | getConfig
  | sleep (secs : Nat)
  | sendText
  | sendPhoto
deriving DecidableEq

/-- Modelled from the spec: the canonical variant's jittered `sendSlot`
sequence (spec §4.4, steps 1-2 and 4/6) is not present in `src/` (the
single source file has no jitter).  After obtaining the config, if the
jitter range is non-trivial (not 0/0), sleep a uniformly random duration
within `[jmin, jmax]` (drawn as `jmin + r mod (jmax - jmin + 1)`), then
perform the sends when a text is configured. -/
def sendSlotSequence (jmin jmax r : Nat) (hasText : Bool) : List StepEv :=
  [StepEv.getConfig]
    ++ (if jmin = 0 ∧ jmax = 0 then []
        else [StepEv.sleep (jmin + r % (jmax - jmin + 1))])
    ++ (if hasText then [StepEv.sendText, StepEv.sendPhoto] else [])

/-- Concrete test config: candidates A, B, C at slot 11:00, round-robin. -/
def cfgABC : Config where
  messages := fun k => if k = "11:00" then some ["A", "B", "C"] else none
  images := fun _ => none
  slot_image := fun _ => none
  rotation := some "round_robin"
  refresh_seconds := 120

/-- Concrete test config: same candidates, daily rotation. -/
def cfgDailyABC : Config where
  messages := fun k => if k = "11:00" then some ["A", "B", "C"] else none
  images := fun _ => none
  slot_image := fun _ => none
  rotation := some "daily"
  refresh_seconds := 120

/-- Concrete test document supplying only `images.left`. -/
def docLeftOnly : RemoteDoc where
  messages := none
  images := some (fun k => if k = "left" then some "X" else none)
  slot_image := none
  rotation := none
  refresh_seconds := none

/-- Concrete test document supplying nothing. -/
def docEmpty : RemoteDoc where
  messages := none
  images := none
  slot_image := none
  rotation := none
  refresh_seconds := none

/-- Monday 2025-01-06 (day-of-year 6). -/
def mondayNow : Now where
  day_of_year := 6
  today_key := "2025-01-06"

/-- Concrete environment for exercising `send_slot` with a configured
remote URL and a stale cache. -/
def envStale : Env where
  url_configured := true
  time_now := 1000
  net := FetchResult.fail
  date := mondayNow
  dry_run := false
  chat_id := "chan"
  text_ok := true
  photo_ok := true

/-- The day-rollover update inside `pick_message` never changes
`rr_index`. -/
theorem rollover_rr_index (st : RotState) (k : String) :
    (if st.last_day ≠ k then { st with last_day := k } else st).rr_index
      = st.rr_index := by
  split <;> rfl

/-- A config whose lowercased rotation value is not `"daily"` (missing
and empty values included) is not in daily mode. -/
theorem rotationMode_ne_daily (cfg : Config)
    (h : lowerString (cfg.rotation.getD "") ≠ "daily") :
    rotationMode cfg ≠ "daily" := by
  unfold rotationMode
  by_cases he : cfg.rotation.getD "" = ""
  · simp only [he, if_pos rfl]
    decide
  · simp only [if_neg he]
    exact h

/-- C1: in round-robin mode, a successful selection from `N ≥ 1`
candidates returns `candidates[rotationIndex mod N]` for the pre-call
index, increments the persisted index by exactly 1 (so it never
decreases), and the selected position lies in `[0, N)`. -/
theorem pick_message_round_robin_spec (cfg : Config) (slot_hhmm : String)
    (now : Now) (st : RotState)
    (hmode : rotationMode cfg = "round_robin")
    (hne : (cfg.messages slot_hhmm).getD [] ≠ []) :
    (pick_message cfg slot_hhmm now st).1
      = ((cfg.messages slot_hhmm).getD []).getD
          (Int.emod st.rr_index ((cfg.messages slot_hhmm).getD []).length).toNat ""
    ∧ (pick_message cfg slot_hhmm now st).2.rr_index = st.rr_index + 1
    ∧ st.rr_index < (pick_message cfg slot_hhmm now st).2.rr_index
    ∧ 0 ≤ Int.emod st.rr_index ((cfg.messages slot_hhmm).getD []).length
    ∧ Int.emod st.rr_index ((cfg.messages slot_hhmm).getD []).length
        < ((cfg.messages slot_hhmm).getD []).length := by
  have hdaily : ¬ (rotationMode cfg = "daily") := by
    rw [hmode]; decide
  have hlen : 0 < ((cfg.messages slot_hhmm).getD []).length :=
    List.length_pos.mpr hne
  have hlenI : (0 : Int) < (((cfg.messages slot_hhmm).getD []).length : Int) := by
    exact_mod_cast hlen
  refine ⟨?_, ?_, ?_, ?_, ?_⟩
  · simp only [pick_message, if_neg hne, if_neg hdaily]
    rw [rollover_rr_index]
  · simp only [pick_message, if_neg hne, if_neg hdaily]
    rw [rollover_rr_index]
  · simp only [pick_message, if_neg hne, if_neg hdaily]
    rw [rollover_rr_index]
    omega
  · exact Int.emod_nonneg st.rr_index (by omega)
  · exact Int.emod_lt_of_pos st.rr_index hlenI

/-- C1 witness: candidates A, B, C at slot 11:00 with rotation index 5
select `"C"` and leave the index at 6. -/
theorem pick_message_round_robin_example :
    rotationMode cfgABC = "round_robin"
    ∧ (cfgABC.messages "11:00").getD [] ≠ []
    ∧ (pick_message cfgABC "11:00" mondayNow ⟨5, ""⟩).1 = "C"
    ∧ (pick_message cfgABC "11:00" mondayNow ⟨5, ""⟩).2.rr_index = 6 := by
  have h := pick_message_round_robin_spec cfgABC "11:00" mondayNow ⟨5, ""⟩
    (by decide) (by decide)
  exact ⟨by decide, by decide, by rw [h.1]; decide, by rw [h.2.1]; decide⟩

/-- C5: with the daily rotation policy the selection leaves the
persisted state untouched and depends only on the day-of-year and the
slot string (for a fixed config): two calls on the same simulated date
and slot agree regardless of the rotation state. -/
theorem pick_message_daily_pure (cfg : Config) (slot_hhmm : String)
    (now now2 : Now) (st st2 : RotState)
    (hmode : rotationMode cfg = "daily") :
    (pick_message cfg slot_hhmm now st).2 = st
    ∧ (now.day_of_year = now2.day_of_year →
        (pick_message cfg slot_hhmm now st).1
          = (pick_message cfg slot_hhmm now2 st2).1) := by
  constructor
  · by_cases hne : (cfg.messages slot_hhmm).getD [] = []
    · simp [pick_message, hne]
    · simp [pick_message, hne, hmode]
  · intro hday
    by_cases hne : (cfg.messages slot_hhmm).getD [] = []
    · simp [pick_message, hne]
    · simp [pick_message, hne, hmode, hday]

/-- C5 witness: daily mode at day-of-year 6 picks the same message for
rotation states 5 and 99 and does not modify the state. -/
theorem pick_message_daily_pure_example :
    rotationMode cfgDailyABC = "daily"
    ∧ (pick_message cfgDailyABC "11:00" mondayNow ⟨5, "x"⟩).2 = ⟨5, "x"⟩
    ∧ (pick_message cfgDailyABC "11:00" mondayNow ⟨5, "x"⟩).1
        = (pick_message cfgDailyABC "11:00" ⟨6, "2025-12-06"⟩ ⟨99, "y"⟩).1 := by
  have h := pick_message_daily_pure cfgDailyABC "11:00" mondayNow
    ⟨6, "2025-12-06"⟩ ⟨5, "x"⟩ ⟨99, "y"⟩ (by decide)
  exact ⟨by decide, h.1, h.2 (by decide)⟩

/-- C10: any rotation value which is not `"daily"` case-insensitively
(unknown and missing values included) behaves exactly as round-robin
mode: same result as with rotation `"round_robin"`, the shared cursor
advances by one and selection is by the cursor modulo the candidate
count. -/
theorem pick_message_other_rotation (cfg : Config) (slot_hhmm : String)
    (now : Now) (st : RotState)
    (h : lowerString (cfg.rotation.getD "") ≠ "daily") :
    pick_message cfg slot_hhmm now st
      = pick_message { cfg with rotation := some "round_robin" } slot_hhmm now st
    ∧ ((cfg.messages slot_hhmm).getD [] ≠ [] →
        (pick_message cfg slot_hhmm now st).2.rr_index = st.rr_index + 1
        ∧ (pick_message cfg slot_hhmm now st).1
            = ((cfg.messages slot_hhmm).getD []).getD
                (Int.emod st.rr_index ((cfg.messages slot_hhmm).getD []).length).toNat "") := by
  have h1 : ¬ (rotationMode cfg = "daily") := rotationMode_ne_daily cfg h
  have h2 : ¬ (rotationMode { cfg with rotation := some "round_robin" } = "daily") := by
    have hr : rotationMode { cfg with rotation := some "round_robin" }
        = "round_robin" := rfl
    rw [hr]; decide
  constructor
  · by_cases hne : (cfg.messages slot_hhmm).getD [] = []
    · simp only [pick_message]
      rw [if_pos hne, if_pos hne]
    · simp only [pick_message]
      rw [if_neg hne, if_neg hne, if_neg h1, if_neg h2]
  · intro hne
    constructor
    · simp only [pick_message, if_neg hne, if_neg h1]
      rw [rollover_rr_index]
    · simp only [pick_message, if_neg hne, if_neg h1]
      rw [rollover_rr_index]

/-- C10 witness: rotation value `"weekly"` (unknown) advances the
cursor and selects like round-robin. -/
theorem pick_message_other_rotation_example :
    lowerString (({ cfgABC with rotation := some "weekly" } : Config).rotation.getD "") ≠ "daily"
    ∧ pick_message { cfgABC with rotation := some "weekly" } "11:00" mondayNow ⟨5, ""⟩
        = pick_message { cfgABC with rotation := some "round_robin" } "11:00" mondayNow ⟨5, ""⟩
    ∧ (pick_message { cfgABC with rotation := some "weekly" } "11:00" mondayNow ⟨5, ""⟩).2.rr_index
        = 6 := by
  have h := pick_message_other_rotation { cfgABC with rotation := some "weekly" }
    "11:00" mondayNow ⟨5, ""⟩ (by decide)
  exact ⟨by decide, h.1, by rw [(h.2 (by decide)).1]; decide⟩

/-- On a failed fetch the returned config is the cached one. -/
theorem fetch_config_fail_result (u : Bool) (now : Int) (c : Cache) :
    (fetch_config u now FetchResult.fail c).result = c.data := by
  unfold fetch_config
  cases u with
  | false => rfl
  | true =>
    by_cases hs : now - c.loaded_at < c.data.refresh_seconds
    · rw [if_neg (by simp), if_pos hs]
    · rw [if_neg (by simp), if_neg hs]

/-- On a failed fetch the cache (data and `loaded_at` alike) is left
untouched. -/
theorem fetch_config_fail_cache (u : Bool) (now : Int) (c : Cache) :
    (fetch_config u now FetchResult.fail c).cache = c := by
  unfold fetch_config
  cases u with
  | false => rfl
  | true =>
    by_cases hs : now - c.loaded_at < c.data.refresh_seconds
    · rw [if_neg (by simp), if_pos hs]
    · rw [if_neg (by simp), if_neg hs]

/-- C2: a failed remote fetch (network error, timeout, non-2xx,
malformed body — all reach the same except branch) returns the
previously cached config unchanged, leaves the cache including
`loaded_at` exactly as it was, and therefore a later call past the
refresh interval attempts the fetch again. -/
theorem fetch_config_failure_preserves_cache (u : Bool) (now now2 : Int)
    (net2 : FetchResult) (c : Cache)
    (hstale : c.data.refresh_seconds ≤ now2 - c.loaded_at) :
    (fetch_config u now FetchResult.fail c).result = c.data
    ∧ (fetch_config u now FetchResult.fail c).cache = c
    ∧ (fetch_config true now2 net2
        (fetch_config u now FetchResult.fail c).cache).fetched = true := by
  refine ⟨fetch_config_fail_result u now c, fetch_config_fail_cache u now c, ?_⟩
  rw [fetch_config_fail_cache u now c]
  unfold fetch_config
  rw [if_neg (by simp), if_neg (by omega)]
  cases net2 <;> rfl

/-- C2 witness: with a stale cache at time 0 queried at time 1000, a
failed fetch preserves the default cache and time 2000 retries. -/
theorem fetch_config_failure_example :
    ((⟨0, DEFAULT_CONFIG⟩ : Cache).data.refresh_seconds ≤ (2000 : Int) - (⟨0, DEFAULT_CONFIG⟩ : Cache).loaded_at)
    ∧ (fetch_config true 1000 FetchResult.fail ⟨0, DEFAULT_CONFIG⟩).cache
        = ⟨0, DEFAULT_CONFIG⟩
    ∧ (fetch_config true 2000 FetchResult.fail
        (fetch_config true 1000 FetchResult.fail ⟨0, DEFAULT_CONFIG⟩).cache).fetched = true := by
  have h := fetch_config_failure_preserves_cache true 1000 2000 FetchResult.fail
    ⟨0, DEFAULT_CONFIG⟩ (by decide)
  exact ⟨by decide, h.2.1, h.2.2⟩

/-- C3: the effective config is the built-in default deep-merged
key-by-key for the `messages`, `images` and `slot_image` mappings
(fetched keys override, unspecified keys keep defaults) and field-wise
for scalars; a document supplying only `images.left` leaves
`images.right`, the whole `slot_image` mapping, the whole `messages`
mapping and `refresh_seconds` at their built-in defaults. -/
theorem mergeConfig_spec :
    (∀ (doc : RemoteDoc) (k : String),
      ((doc.images.getD emptyDict) k = none →
        (mergeConfig doc).images k = DEFAULT_CONFIG.images k)
      ∧ (∀ v, (doc.images.getD emptyDict) k = some v →
          (mergeConfig doc).images k = some v))
    ∧ (∀ (doc : RemoteDoc) (k : String),
      ((doc.slot_image.getD emptyDict) k = none →
        (mergeConfig doc).slot_image k = DEFAULT_CONFIG.slot_image k)
      ∧ (∀ v, (doc.slot_image.getD emptyDict) k = some v →
          (mergeConfig doc).slot_image k = some v))
    ∧ (∀ (doc : RemoteDoc) (k : String),
      ((doc.messages.getD emptyDict) k = none →
        (mergeConfig doc).messages k = DEFAULT_CONFIG.messages k)
      ∧ (∀ v, (doc.messages.getD emptyDict) k = some v →
          (mergeConfig doc).messages k = some v))
    ∧ (∀ doc : RemoteDoc, (mergeConfig doc).refresh_seconds
        = doc.refresh_seconds.getD DEFAULT_CONFIG.refresh_seconds)
    ∧ (mergeConfig docLeftOnly).images "left" = some "X"
    ∧ (mergeConfig docLeftOnly).images "right" = some ""
    ∧ (∀ k, (mergeConfig docLeftOnly).slot_image k = DEFAULT_CONFIG.slot_image k)
    ∧ (∀ k, (mergeConfig docLeftOnly).messages k = DEFAULT_CONFIG.messages k)
    ∧ (mergeConfig docLeftOnly).refresh_seconds = 120 := by
  refine ⟨?_, ?_, ?_, fun _ => rfl, rfl, rfl, fun _ => rfl, fun _ => rfl, rfl⟩
  all_goals
    intro doc k
    constructor
    · intro h
      simp [mergeConfig, dictUpdate, h]
    · intro v h
      simp [mergeConfig, dictUpdate, h]

/-- C3 witness: the left-only document overrides `images.left` and keeps
`images.right` at the default. -/
theorem mergeConfig_spec_example :
    (docLeftOnly.images.getD emptyDict) "left" = some "X"
    ∧ (docLeftOnly.images.getD emptyDict) "right" = none
    ∧ (mergeConfig docLeftOnly).images "left" = some "X"
    ∧ (mergeConfig docLeftOnly).images "right" = DEFAULT_CONFIG.images "right" := by
  refine ⟨by decide, by decide, ?_, ?_⟩
  · exact (mergeConfig_spec.1 docLeftOnly "left").2 "X" (by decide)
  · exact (mergeConfig_spec.1 docLeftOnly "right").1 (by decide)

/-- C9 counterexample to the claim as stated: with a stale cache and a
failing remote, two `fetch_config` calls one second apart (far below
the cached 120-second refresh interval) both perform a network fetch,
because a failed fetch does not advance `loaded_at`. -/
theorem fetch_config_double_fetch_on_failure :
    ((1001 : Int) - 1000
      < (fetch_config true 1000 FetchResult.fail ⟨0, DEFAULT_CONFIG⟩).cache.data.refresh_seconds)
    ∧ (fetch_config true 1000 FetchResult.fail ⟨0, DEFAULT_CONFIG⟩).fetched = true
    ∧ (fetch_config true 1001 FetchResult.fail
        (fetch_config true 1000 FetchResult.fail ⟨0, DEFAULT_CONFIG⟩).cache).fetched = true := by
  refine ⟨by decide, by decide, by decide⟩

/-- C9 amended: two calls separated by less than the refresh interval of
the config cached after the first call perform at most one successful
network fetch; only a failed first fetch (which by design does not
advance the gate) can make the second call hit the network again. -/
theorem fetch_config_at_most_one_successful_fetch (c : Cache)
    (now1 now2 : Int) (net1 net2 : FetchResult)
    (hsep : now2 - now1 < (fetch_config true now1 net1 c).cache.data.refresh_seconds) :
    ((fetch_config true now1 net1 c).fetched && net1.isOk).toNat
      + ((fetch_config true now2 net2
          (fetch_config true now1 net1 c).cache).fetched && net2.isOk).toNat ≤ 1 := by
  have hb : ∀ b : Bool, b.toNat ≤ 1 := by decide
  cases net1 with
  | fail =>
    simp only [FetchResult.isOk, Bool.and_false, Bool.toNat_false, Nat.zero_add]
    exact hb _
  | ok doc =>
    by_cases hfresh : now1 - c.loaded_at < c.data.refresh_seconds
    · have h1 : fetch_config true now1 (FetchResult.ok doc) c = ⟨c.data, c, false⟩ := by
        unfold fetch_config
        rw [if_neg (by simp), if_pos hfresh]
      rw [h1]
      simp only [Bool.false_and, Bool.toNat_false, Nat.zero_add]
      exact hb _
    · have h1 : fetch_config true now1 (FetchResult.ok doc) c
          = ⟨mergeConfig doc, ⟨now1, mergeConfig doc⟩, true⟩ := by
        unfold fetch_config
        rw [if_neg (by simp), if_neg hfresh]
      rw [h1] at hsep ⊢
      have h2 : (fetch_config true now2 net2
          (⟨mergeConfig doc, ⟨now1, mergeConfig doc⟩, true⟩ : FetchOut).cache).fetched = false := by
        unfold fetch_config
        rw [if_neg (by simp), if_pos hsep]
      rw [h2]
      simp only [Bool.false_and, Bool.toNat_false, Nat.add_zero]
      exact hb _

/-- C9 amended witness: a successful fetch at time 1000 followed one
second later by a second call performs exactly one fetch. -/
theorem fetch_config_at_most_one_fetch_example :
    ((1001 : Int) - 1000
      < (fetch_config true 1000 (FetchResult.ok docEmpty) ⟨0, DEFAULT_CONFIG⟩).cache.data.refresh_seconds)
    ∧ ((fetch_config true 1000 (FetchResult.ok docEmpty) ⟨0, DEFAULT_CONFIG⟩).fetched
        && (FetchResult.ok docEmpty).isOk).toNat
      + ((fetch_config true 1001 (FetchResult.ok docEmpty)
          (fetch_config true 1000 (FetchResult.ok docEmpty) ⟨0, DEFAULT_CONFIG⟩).cache).fetched
        && (FetchResult.ok docEmpty).isOk).toNat ≤ 1 := by
  refine ⟨by decide, ?_⟩
  exact fetch_config_at_most_one_successful_fetch ⟨0, DEFAULT_CONFIG⟩ 1000 1001
    (FetchResult.ok docEmpty) (FetchResult.ok docEmpty) (by decide)

/-- A selection from an empty candidate list returns the empty text and
leaves the rotation state untouched. -/
theorem pick_message_empty (cfg : Config) (slot_hhmm : String) (now : Now)
    (st : RotState) (h : (cfg.messages slot_hhmm).getD [] = []) :
    pick_message cfg slot_hhmm now st = ("", st) := by
  simp [pick_message, h]

/-- C4 counterexample to the claim as stated: at slot 07:00 (empty
candidate list) with a configured remote URL and a stale cache,
`send_slot` does return the no-text failure but still performs a
network call — the config fetch. -/
theorem send_slot_empty_slot_fetch_counterexample :
    (((fetch_config envStale.url_configured envStale.time_now envStale.net
        (⟨0, DEFAULT_CONFIG⟩ : Cache)).result.messages "07:00").getD [] = [])
    ∧ (send_slot envStale ⟨0, DEFAULT_CONFIG⟩ ⟨0, ""⟩ "07:00" none).ok = false
    ∧ (send_slot envStale ⟨0, DEFAULT_CONFIG⟩ ⟨0, ""⟩ "07:00" none).summary
        = "slot 07:00: no text configured"
    ∧ (send_slot envStale ⟨0, DEFAULT_CONFIG⟩ ⟨0, ""⟩ "07:00" none).events
        = [NetEvent.fetch]
    ∧ (send_slot envStale ⟨0, DEFAULT_CONFIG⟩ ⟨0, ""⟩ "07:00" none).events ≠ [] := by
  refine ⟨by decide, by decide, by decide, by decide, by decide⟩

/-- C4 amended: for a slot whose candidate list under the effective
config is empty, `send_slot` fails with the no-text summary, leaves the
rotation state untouched, and performs no send (text or photo) network
calls — the only network event that may occur is the config fetch. -/
theorem send_slot_no_text_spec (env : Env) (cache : Cache) (st : RotState)
    (slot_hhmm : String) (target_chat : Option String)
    (hempty : ((fetch_config env.url_configured env.time_now env.net
        cache).result.messages slot_hhmm).getD [] = []) :
    (send_slot env cache st slot_hhmm target_chat).ok = false
    ∧ (send_slot env cache st slot_hhmm target_chat).summary
        = "slot " ++ slot_hhmm ++ ": no text configured"
    ∧ (send_slot env cache st slot_hhmm target_chat).state = st
    ∧ ∀ e ∈ (send_slot env cache st slot_hhmm target_chat).events,
        e = NetEvent.fetch := by
  have hpick := pick_message_empty
    (fetch_config env.url_configured env.time_now env.net cache).result
    slot_hhmm env.date st hempty
  have hout : send_slot env cache st slot_hhmm target_chat
      = ⟨false, "slot " ++ slot_hhmm ++ ": no text configured",
          (fetch_config env.url_configured env.time_now env.net cache).cache, st,
          if (fetch_config env.url_configured env.time_now env.net cache).fetched
            then [NetEvent.fetch] else []⟩ := by
    simp [send_slot, hpick]
  rw [hout]
  refine ⟨rfl, rfl, rfl, ?_⟩
  intro e he
  by_cases hf : (fetch_config env.url_configured env.time_now env.net cache).fetched = true
  · rw [if_pos hf] at he
    simpa using he
  · rw [if_neg hf] at he
    simp at he

/-- C4 amended witness: the empty 07:00 slot fails with the no-text
summary and only the fetch event. -/
theorem send_slot_no_text_example :
    (((fetch_config envStale.url_configured envStale.time_now envStale.net
        (⟨0, DEFAULT_CONFIG⟩ : Cache)).result.messages "07:00").getD [] = [])
    ∧ (send_slot envStale ⟨0, DEFAULT_CONFIG⟩ ⟨0, ""⟩ "07:00" none).ok = false
    ∧ (send_slot envStale ⟨0, DEFAULT_CONFIG⟩ ⟨0, ""⟩ "07:00" none).summary
        = "slot " ++ "07:00" ++ ": no text configured"
    ∧ ∀ e ∈ (send_slot envStale ⟨0, DEFAULT_CONFIG⟩ ⟨0, ""⟩ "07:00" none).events,
        e = NetEvent.fetch := by
  have h := send_slot_no_text_spec envStale ⟨0, DEFAULT_CONFIG⟩ ⟨0, ""⟩
    "07:00" none (by decide)
  exact ⟨by decide, h.1, h.2.1, h.2.2.2⟩

/-- C6 counterexample to the claim as stated: the input `"/test"` has
first token `/test` and is not one of the two recognized shapes, yet the
parser yields no command at all instead of a usage pseudo-command. -/
theorem handle_command_bare_test_counterexample :
    tokenize "/test" = ["/test"] ∧ handle_command "/test" = none := by
  exact ⟨by decide, by decide⟩

/-- C6 amended: the parser recognizes exactly `/test <slot>` and
`/test me <slot>` (`me` case-insensitively), with `<slot>` mapped
through the fixed slot table accepting bare hours and HH:MM forms; a
recognized shape with an unrecognized slot token yields the usage
pseudo-command with the help string; every other input — a first token
other than `/test`, or `/test` with no argument, more than two
arguments, or two arguments whose first is not `me` — yields no command
at all. -/
theorem handle_command_grammar :
    (∀ text : String, (tokenize text).headD "" ≠ "/test" →
      handle_command text = none)
    ∧ (∀ (text s : String), tokenize text = ["/test", s] →
        handle_command text = slotLookup "channel" s)
    ∧ (∀ (text m s : String), tokenize text = ["/test", m, s] →
        handle_command text
          = if lowerString m = "me" then slotLookup "me" s else none)
    ∧ (∀ (text p0 : String) (rest : List String), tokenize text = p0 :: rest →
        rest.length ≠ 1 → rest.length ≠ 2 → handle_command text = none)
    ∧ (∀ (target s : String), slot_map s = none →
        slotLookup target s = some ("usage", USAGE_TEXT))
    ∧ (∀ (target s hhmm : String), slot_map s = some hhmm →
        slotLookup target s = some (target, hhmm))
    ∧ slot_map "11" = some "11:00" ∧ slot_map "15" = some "15:00"
    ∧ slot_map "22" = some "22:00" ∧ slot_map "11:00" = some "11:00"
    ∧ slot_map "15:00" = some "15:00" ∧ slot_map "22:00" = some "22:00"
    ∧ (∀ s : String,
        s ∉ (["11", "15", "22", "11:00", "15:00", "22:00"] : List String) →
        slot_map s = none) := by
  refine ⟨?_, ?_, ?_, ?_, ?_, ?_, by decide, by decide, by decide, by decide,
    by decide, by decide, ?_⟩
  · intro text h
    unfold handle_command
    cases htok : tokenize text with
    | nil => rfl
    | cons p0 rest =>
      rw [htok] at h
      simp only [List.headD_cons] at h
      simp only [handle_parts]
      rw [if_neg h]
  · intro text s h
    unfold handle_command
    rw [h]
    rfl
  · intro text m s h
    unfold handle_command
    rw [h]
    rfl
  · intro text p0 rest h h1 h2
    unfold handle_command
    rw [h]
    simp only [handle_parts]
    rcases rest with _ | ⟨a, _ | ⟨b, _ | ⟨c, t⟩⟩⟩
    · by_cases hp : p0 = "/test"
      · rw [if_pos hp]
      · rw [if_neg hp]
    · exact absurd rfl h1
    · exact absurd rfl h2
    · by_cases hp : p0 = "/test"
      · rw [if_pos hp]
      · rw [if_neg hp]
  · intro target s h
    unfold slotLookup
    rw [h]
  · intro target s hhmm h
    unfold slotLookup
    rw [h]
  · intro s hs
    simp only [List.mem_cons, List.mem_singleton, List.not_mem_nil, not_or] at hs
    obtain ⟨h1, h2, h3, h4, h5, h6, -⟩ := hs
    simp only [slot_map]
    rw [if_neg h1, if_neg h2, if_neg h3, if_neg h4, if_neg h5, if_neg h6]

/-- C6 witness: `/test 11` parses to the channel target at slot 11:00,
and an unrecognized slot token produces the usage pseudo-command. -/
theorem handle_command_grammar_example :
    tokenize "/test 11" = ["/test", "11"]
    ∧ handle_command "/test 11" = slotLookup "channel" "11"
    ∧ slot_map "abc" = none
    ∧ slotLookup "channel" "abc" = some ("usage", USAGE_TEXT) := by
  refine ⟨by decide, ?_, by decide, ?_⟩
  · exact handle_command_grammar.2.1 "/test 11" "11" (by decide)
  · exact handle_command_grammar.2.2.2.2.1 "channel" "abc" (by decide)

/-- C7: when the configured image value for a slot normalizes to the
pool `["urlA", "urlB"]`, image selection returns one of the two
references — never empty, never a third value — for every random
draw. -/
theorem selectImage_pool_spec (images : Dict (List String))
    (sik : Dict String) (slot : String) (r : Nat)
    (hpool : (((images ((sik slot).getD "")).getD []).filter
        (fun s => s.data.any (fun c => !c.isWhitespace))) = ["urlA", "urlB"]) :
    (selectImage images sik slot r = "urlA"
      ∨ selectImage images sik slot r = "urlB")
    ∧ selectImage images sik slot r ≠ "" := by
  have hsel : selectImage images sik slot r = ["urlA", "urlB"].getD (r % 2) "" := by
    simp only [selectImage]
    rw [hpool, if_neg (by decide)]
    rfl
  rcases Nat.mod_two_eq_zero_or_one r with h | h
  · rw [hsel, h]
    exact ⟨Or.inl rfl, by decide⟩
  · rw [hsel, h]
    exact ⟨Or.inr rfl, by decide⟩

/-- C7 witness: a configured value with a blank and an empty entry
normalizes to the two-element pool and draw 3 returns `"urlB"`. -/
theorem selectImage_pool_example :
    ((((fun _ => some ["urlA", " ", "urlB", ""] : Dict (List String))
        (((fun _ => some "k" : Dict String) "11:00").getD "")).getD []).filter
        (fun s => s.data.any (fun c => !c.isWhitespace))) = ["urlA", "urlB"]
    ∧ (selectImage (fun _ => some ["urlA", " ", "urlB", ""])
          (fun _ => some "k") "11:00" 3 = "urlA"
        ∨ selectImage (fun _ => some ["urlA", " ", "urlB", ""])
          (fun _ => some "k") "11:00" 3 = "urlB")
    ∧ selectImage (fun _ => some ["urlA", " ", "urlB", ""])
        (fun _ => some "k") "11:00" 3 ≠ "" := by
  have h := selectImage_pool_spec (fun _ => some ["urlA", " ", "urlB", ""])
    (fun _ => some "k") "11:00" 3 (by decide)
  exact ⟨by decide, h.1, h.2⟩

/-- C8: with jitter range (2,2) the canonical sendSlot sequence sleeps
exactly 2 seconds, immediately after obtaining the config and before
the text send, in every invocation (every random draw `r`). -/
theorem sendSlotSequence_jitter_two (r : Nat) (hasText : Bool) :
    sendSlotSequence 2 2 r hasText
      = [StepEv.getConfig, StepEv.sleep 2]
        ++ (if hasText then [StepEv.sendText, StepEv.sendPhoto] else []) := by
  simp [sendSlotSequence, Nat.mod_one]

end Bot
